import Mathlib

/-!
Verification of the Genezio Express adapter (`src/express/index.ts`,
`createExpressRouter`).

The adapter is a single Express handler.  We model the JavaScript runtime
values the handler manipulates (`JsonValue`), JS truthiness, JS property
access (which throws a `TypeError` on `null`/`undefined` receivers),
`String.prototype.split` with a single-character separator, and argument
spreading of `params`.  The handler itself is translated line by line into
`handle` / `dispatch`; the response object is modelled by its final state
(`Res`: last status written, headers set, JSON body sent), and an exception
escaping the async handler is the `Outcome.thrown` constructor carrying the
response state at the moment of the throw.
-/

namespace Genezio

/-- JSON-like JavaScript runtime values, as delivered by the Express body
parser (any JSON value, or `undefined` when no body was parsed). -/
inductive JsonValue where
  | null : JsonValue
  | undefined : JsonValue
  | bool : Bool → JsonValue
  | num : Int → JsonValue
  | str : String → JsonValue
  | arr : List JsonValue → JsonValue
  | obj : List (String × JsonValue) → JsonValue

/-- JavaScript truthiness: `undefined`, `null`, `false`, `0` and `""` are
falsy; every object and array is truthy. -/
def truthy : JsonValue → Bool
  | .null => false
  | .undefined => false
  | .bool b => b
  | .num n => if n = 0 then false else true
  | .str s => if s = "" then false else true
  | .arr _ => true
  | .obj _ => true

/-- `true` exactly for `null` and `undefined` (the receivers on which a JS
property access throws a `TypeError`). -/
def isNullish : JsonValue → Bool
  | .null => true
  | .undefined => true
  | _ => false

/-- First-match association-list lookup (JSON objects have unique keys, and
JS `Map.get` returns the stored value for the key). -/
def lookupStr {α : Type} (k : String) : List (String × α) → Option α
  | [] => none
  | (k', v) :: rest => if k = k' then some v else lookupStr k rest

/-- Property read on a non-nullish receiver: objects yield the stored field
or `undefined`; primitives and arrays yield `undefined` for the (non-index,
non-builtin) property names the handler reads. -/
def jsFieldT (v : JsonValue) (k : String) : JsonValue :=
  match v with
  | .obj fs => (lookupStr k fs).getD .undefined
  | _ => .undefined

/-- Property read `v[k]`: throws (`.error`) on a nullish receiver, as JS
does, and otherwise yields `jsFieldT`. -/
def jsField (v : JsonValue) (k : String) : Except Unit JsonValue :=
  if isNullish v then .error () else .ok (jsFieldT v k)

/-- JS strict equality of a value against a string literal
(`v === "lit"`): true exactly when `v` is that string. -/
def strEq (v : JsonValue) (t : String) : Bool :=
  match v with
  | .str s => if s = t then true else false
  | _ => false

/-- `String.prototype.split` with a one-character separator, on the char
list: `"" ↦ [""]`, `"a.b" ↦ ["a","b"]`, `"a." ↦ ["a",""]`. -/
def splitChars (sep : Char) : List Char → List (List Char)
  | [] => [[]]
  | c :: cs =>
    match splitChars sep cs with
    | [] => [[]]
    | r :: rs => if c = sep then [] :: r :: rs else (c :: r) :: rs

/-- JS `s.split(sep)` for a single-character separator. -/
def jsSplit (s : String) (sep : Char) : List String :=
  (splitChars sep s.data).map fun l => String.mk l

/-- `methodComponents[0]`: the first element of the component list (the
list coming from `split` is never empty, so the default is unreachable). -/
def firstComp : List String → String
  | [] => ""
  | c :: _ => c

/-- `methodComponents.pop()`: the last element of the component list (the
list has at least two elements when this is evaluated). -/
def lastComp : List String → String
  | [] => ""
  | [c] => c
  | _ :: c :: rest => lastComp (c :: rest)

/-- Spreading `req.body.params || []` into a call's argument list: a falsy
value defaults to no arguments, an array spreads to its elements, a string
spreads to its characters, and every other truthy value is not iterable, so
the spread throws a `TypeError` (caught by the handler's `try`). -/
def spreadArgs (p : JsonValue) : Except Unit (List JsonValue) :=
  if truthy p then
    match p with
    | .arr xs => .ok xs
    | .str s => .ok (s.data.map fun c => .str (String.mk [c]))
    | _ => .error ()
  else .ok []

/-- A registered instance: its invocable methods by name.  A method either
returns a value or throws/rejects (`.error`); `await` collapses a returned
promise to its settled outcome. -/
abbrev ServiceInstance := List (String × (List JsonValue → Except Unit JsonValue))

/-- A class passed to `createExpressRouter`: its declared `name` and the
instance `new c()` produces. -/
structure RuntimeClass where
  name : String
  inst : ServiceInstance

/-- The `instances` map built at middleware initialization:
`classes.forEach(c => instances.set(c.name, new c()))` — a later class with
the same name overwrites an earlier one. -/
def buildInstances (classes : List RuntimeClass) : String → Option ServiceInstance :=
  classes.foldl (fun m c k => if k = c.name then some c.inst else m k) (fun _ => none)

/-- Final state of the Express response object: the last status code value
written by `res.status`, the headers set by `res.setHeader`, and the JSON
body sent by `res.json` (none if `json` was never called). -/
structure Res where
  status : Option JsonValue
  headers : List (String × String)
  sentBody : Option JsonValue

/-- A response object nothing was written to. -/
def emptyRes : Res := ⟨none, [], none⟩

/-- State after `res.status(code).json({error: msg})`. -/
def errRes (code : Int) (msg : String) : Res :=
  ⟨some (.num code), [], some (.obj [("error", .str msg)])⟩

/-- State after the success branch: `res.setHeader('Content-Type',
'application/json'); res.status(200).json({jsonrpc:"2.0", result, id:null})`
(the earlier status write from `response.statusCode` is overwritten). -/
def successRes (response : JsonValue) : Res :=
  ⟨some (.num 200), [("Content-Type", "application/json")],
   some (.obj [("jsonrpc", .str "2.0"), ("result", response), ("id", .null)])⟩

/-- Outcome of one handler invocation: the handler returned normally with
the response in state `r`, or an exception escaped the async handler
(rejecting its promise) with the response still in state `r`. -/
inductive Outcome where
  | done : Res → Outcome
  | thrown : Res → Outcome

/-- The eligibility guard, line 38:
`!req.body || (req.body && req.body["jsonrpc"] === "2.0")`.  When the body
is truthy the second disjunct is the strict comparison; when it is falsy the
first disjunct already holds. -/
def eligible (body : JsonValue) : Bool :=
  !truthy body || strEq (jsFieldT body "jsonrpc") "2.0"

/-- Lines 58–97: class lookup, duck-typed method lookup, invocation with the
spread params, and response shaping inside `try`/`catch`.  Reading
`statusCode` off a nullish return value throws inside the `try`, hence the
500 branch; otherwise the final `res.status(200).json(...)` overwrites the
statusCode-derived status. -/
def dispatch (instances : String → Option ServiceInstance)
    (className methodName : String) (params : JsonValue) : Outcome :=
  match instances className with
  | none => .done (errRes 404 ("Class " ++ className ++ " not found."))
  | some inst =>
    match lookupStr methodName inst with
    | none => .done (errRes 404 ("Method " ++ methodName ++ " not found"))
    | some f =>
      match spreadArgs params with
      | .error _ => .done (errRes 500 "Internal server error")
      | .ok args =>
        match f args with
        | .error _ => .done (errRes 500 "Internal server error")
        | .ok response =>
          match jsField response "statusCode" with
          | .error _ => .done (errRes 500 "Internal server error")
          | .ok _ => .done (successRes response)

/-- The request handler returned by `createExpressRouter`, lines 36–99.
After the eligibility guard, `req.body.method` is read (throwing on a
nullish body); a falsy `method` yields the 400 missing-property response; a
truthy non-string `method` has no `split` method, so the call throws and
escapes the handler; otherwise the method string is split on `'.'`,
validated to have at least two components, and the first component
(`methodComponents[0]`) and last component (`methodComponents.pop()`) are
passed to `dispatch`. -/
def handle (instances : String → Option ServiceInstance) (body : JsonValue) : Outcome :=
  if eligible body then
    match jsField body "method" with
    | .error _ => .thrown emptyRes
    | .ok m =>
      if truthy m then
        match m with
        | .str s =>
          let comps := jsSplit s '.'
          if comps.length < 2 then
            .done (errRes 400 "Request invalid. Incorrect 'method' property format. It should be <classname.methodname>.")
          else
            dispatch instances (firstComp comps) (lastComp comps) (jsFieldT body "params")
        | _ => .thrown emptyRes
      else
        .done (errRes 400 "Request invalid. Missing 'method' property from body.")
  else
    .done emptyRes

/-- `createExpressRouter(classes)`: build the instance map once, return the
handler. -/
def createExpressRouter (classes : List RuntimeClass) : JsonValue → Outcome :=
  handle (buildInstances classes)

/-- A method string with at least two dot-components is nonempty (the empty
string splits to the single component `[""]`). -/
theorem ne_empty_of_comps (s : String) (h : 2 ≤ (jsSplit s '.').length) : s ≠ "" := by
  rintro rfl
  have h0 : jsSplit "" '.' = [""] := by decide
  rw [h0] at h
  exact absurd h (by decide)

/-- C3: a request with a truthy body whose `jsonrpc` field is not the
literal string `"2.0"` fails the eligibility guard, and the handler returns
without setting a status, setting a header, or sending a body. -/
theorem ineligible_writes_nothing (classes : List RuntimeClass) (body : JsonValue)
    (ht : truthy body = true)
    (hj : strEq (jsFieldT body "jsonrpc") "2.0" = false) :
    createExpressRouter classes body = .done emptyRes := by
  unfold createExpressRouter handle eligible
  simp [ht, hj]

/-- C3 witness: a body declaring `jsonrpc: "1.0"` gets no response at all. -/
theorem ineligible_writes_nothing_witness :
    truthy (JsonValue.obj [("jsonrpc", JsonValue.str "1.0")]) = true ∧
    strEq (jsFieldT (JsonValue.obj [("jsonrpc", JsonValue.str "1.0")]) "jsonrpc") "2.0" = false ∧
    createExpressRouter [] (JsonValue.obj [("jsonrpc", JsonValue.str "1.0")]) = .done emptyRes :=
  ⟨by decide, by decide, ineligible_writes_nothing [] _ (by decide) (by decide)⟩

/-- C4 counterexample: the body `""` is falsy, yet the handler does not
throw — reading `.method` on a non-nullish primitive yields `undefined`, so
the handler responds 400 (a response IS written). -/
theorem empty_string_body_no_throw :
    truthy (JsonValue.str "") = false ∧
    createExpressRouter [] (JsonValue.str "")
      = .done (errRes 400 "Request invalid. Missing 'method' property from body.") ∧
    (errRes 400 "Request invalid. Missing 'method' property from body.").sentBody ≠ none :=
  ⟨by decide, by rfl, by simp [errRes]⟩

/-- C4 (amended: body `null`/`undefined`, not merely falsy): a nullish body
passes the eligibility guard, and reading `req.body.method` then throws a
`TypeError` that escapes the async handler with nothing written to the
response. -/
theorem nullish_body_typeerror (classes : List RuntimeClass) (body : JsonValue)
    (h : isNullish body = true) :
    createExpressRouter classes body = .thrown emptyRes := by
  cases body
  case null => rfl
  case undefined => rfl
  all_goals simp [isNullish] at h

/-- C4 witness: the `undefined` body (no parsed body at all). -/
theorem nullish_body_typeerror_witness :
    isNullish JsonValue.undefined = true ∧
    createExpressRouter [] JsonValue.undefined = .thrown emptyRes :=
  ⟨by decide, nullish_body_typeerror [] JsonValue.undefined (by decide)⟩

/-- C2 counterexample: a request with no body (`req.body` undefined) lacks a
`method` field, but the handler throws instead of responding 400. -/
theorem undefined_body_no_400 :
    createExpressRouter [] JsonValue.undefined = .thrown emptyRes ∧
    Outcome.thrown emptyRes
      ≠ .done (errRes 400 "Request invalid. Missing 'method' property from body.") :=
  ⟨by rfl, fun h => Outcome.noConfusion h⟩

/-- C2 (amended: restricted to eligible requests with a non-nullish body —
a nullish body throws instead, and a truthy body with `jsonrpc ≠ "2.0"` gets
no response): a missing or falsy `method` field yields HTTP 400 with exactly
the missing-property message. -/
theorem missing_method_400 (classes : List RuntimeClass) (body : JsonValue)
    (hnn : isNullish body = false)
    (he : eligible body = true)
    (hm : truthy (jsFieldT body "method") = false) :
    createExpressRouter classes body
      = .done (errRes 400 "Request invalid. Missing 'method' property from body.") := by
  unfold createExpressRouter handle jsField
  simp [he, hnn, hm]

/-- C2 witness: an eligible object body with no `method` key. -/
theorem missing_method_400_witness :
    isNullish (JsonValue.obj [("jsonrpc", JsonValue.str "2.0")]) = false ∧
    eligible (JsonValue.obj [("jsonrpc", JsonValue.str "2.0")]) = true ∧
    truthy (jsFieldT (JsonValue.obj [("jsonrpc", JsonValue.str "2.0")]) "method") = false ∧
    createExpressRouter [] (JsonValue.obj [("jsonrpc", JsonValue.str "2.0")])
      = .done (errRes 400 "Request invalid. Missing 'method' property from body.") :=
  ⟨by decide, by decide, by decide,
   missing_method_400 [] _ (by decide) (by decide) (by decide)⟩

/-- C10 counterexample: the body has a `method` field (the empty string),
whose split has one component — fewer than 2 — yet the handler answers with
the missing-property message, not the format message, because the empty
string is falsy and fails the `!req.body.method` check first. -/
theorem empty_method_string_gets_missing_message :
    (jsSplit "" '.').length < 2 ∧
    createExpressRouter [] (JsonValue.obj [("jsonrpc", JsonValue.str "2.0"), ("method", JsonValue.str "")])
      = .done (errRes 400 "Request invalid. Missing 'method' property from body.") ∧
    "Request invalid. Missing 'method' property from body."
      ≠ "Request invalid. Incorrect 'method' property format. It should be <classname.methodname>." :=
  ⟨by decide, by rfl, by decide⟩

/-- C10 (amended: the `method` field must be a truthy — i.e. nonempty —
string; an empty `method` string takes the missing-property branch instead):
an eligible request whose `method` string splits into fewer than 2
components gets HTTP 400 with the format message, for every class registry
alike (no class or method lookup happens). -/
theorem bad_method_format_400 (classes : List RuntimeClass) (body : JsonValue) (s : String)
    (hnn : isNullish body = false)
    (he : eligible body = true)
    (hm : jsFieldT body "method" = .str s)
    (hs : s ≠ "")
    (hlen : (jsSplit s '.').length < 2) :
    createExpressRouter classes body
      = .done (errRes 400 "Request invalid. Incorrect 'method' property format. It should be <classname.methodname>.") := by
  unfold createExpressRouter handle jsField
  simp [he, hnn, hm, truthy, hs, hlen]

/-- C10 witness: `method: "foo"` (no dot) with a registered class. -/
theorem bad_method_format_400_witness :
    isNullish (JsonValue.obj [("jsonrpc", JsonValue.str "2.0"), ("method", JsonValue.str "foo")]) = false ∧
    eligible (JsonValue.obj [("jsonrpc", JsonValue.str "2.0"), ("method", JsonValue.str "foo")]) = true ∧
    jsFieldT (JsonValue.obj [("jsonrpc", JsonValue.str "2.0"), ("method", JsonValue.str "foo")]) "method" = .str "foo" ∧
    ("foo" : String) ≠ "" ∧
    (jsSplit "foo" '.').length < 2 ∧
    createExpressRouter [⟨"foo", [("bar", fun _ => .ok .null)]⟩]
      (JsonValue.obj [("jsonrpc", JsonValue.str "2.0"), ("method", JsonValue.str "foo")])
      = .done (errRes 400 "Request invalid. Incorrect 'method' property format. It should be <classname.methodname>.") :=
  ⟨by decide, by decide, by rfl, by decide, by decide,
   bad_method_format_400 _ _ "foo" (by decide) (by decide) (by rfl) (by decide) (by decide)⟩

/-- C1 counterexample: a registered method that successfully returns `null`
does not get the success envelope — reading `statusCode` off the nullish
return value throws inside `try`, so the handler answers 500. -/
theorem null_result_breaks_success_envelope :
    createExpressRouter [⟨"A", [("b", fun _ => .ok JsonValue.null)]⟩]
      (JsonValue.obj [("jsonrpc", JsonValue.str "2.0"), ("method", JsonValue.str "A.b")])
      = .done (errRes 500 "Internal server error") ∧
    errRes 500 "Internal server error" ≠ successRes JsonValue.null :=
  ⟨by rfl, by simp [errRes, successRes]⟩

/-- C1 (amended: the returned value must additionally be non-nullish — a
method returning `null`/`undefined` gets a 500 instead, see the
counterexample): an eligible request `A.b` hitting a registered class and
an existing method that returns `r` is answered with HTTP 200, the
`Content-Type: application/json` header, and exactly
`{jsonrpc: "2.0", result: r, id: null}`. -/
theorem success_envelope (classes : List RuntimeClass)
    (fields : List (String × JsonValue)) (A b : String)
    (inst : ServiceInstance) (f : List JsonValue → Except Unit JsonValue)
    (args : List JsonValue) (r : JsonValue)
    (hjs : jsFieldT (.obj fields) "jsonrpc" = .str "2.0")
    (hm : jsFieldT (.obj fields) "method" = .str (A ++ "." ++ b))
    (hsplit : jsSplit (A ++ "." ++ b) '.' = [A, b])
    (hA : buildInstances classes A = some inst)
    (hb : lookupStr b inst = some f)
    (hargs : spreadArgs (jsFieldT (.obj fields) "params") = .ok args)
    (hcall : f args = .ok r)
    (hr : isNullish r = false) :
    createExpressRouter classes (.obj fields) = .done (successRes r) := by
  have hne : A ++ "." ++ b ≠ "" := ne_empty_of_comps _ (by rw [hsplit]; exact Nat.le_refl 2)
  have hobj : isNullish (JsonValue.obj fields) = false := rfl
  unfold createExpressRouter handle dispatch
  simp [eligible, truthy, strEq, jsField, hobj, hjs, hm, hne, hsplit,
    firstComp, lastComp, hA, hb, hargs, hcall, hr]

/-- C1 witness: the spec's own concrete scenario,
`HelloWorldService.sayHello(["World"])`. -/
theorem success_envelope_witness :
    createExpressRouter
      [⟨"HelloWorldService",
        [("sayHello", fun _ => .ok (JsonValue.str "Hello, World"))]⟩]
      (JsonValue.obj [("jsonrpc", JsonValue.str "2.0"),
        ("method", JsonValue.str "HelloWorldService.sayHello"),
        ("params", JsonValue.arr [JsonValue.str "World"])])
      = .done (successRes (JsonValue.str "Hello, World")) :=
  success_envelope _ _ "HelloWorldService" "sayHello" _
    (fun _ => .ok (JsonValue.str "Hello, World")) [JsonValue.str "World"] _
    (by rfl) (by rfl) (by decide) (by rfl) (by rfl) (by rfl) (by rfl) (by decide)

/-- C5: an eligible, well-formed request resolving to a registered class
and an existing method whose invocation returns `null` or `undefined` is
answered 500 `{error: "Internal server error"}` — `response.statusCode`
throws on the nullish value inside the `try` block. -/
theorem nullish_result_500 (classes : List RuntimeClass)
    (fields : List (String × JsonValue)) (s : String)
    (inst : ServiceInstance) (f : List JsonValue → Except Unit JsonValue)
    (args : List JsonValue) (r : JsonValue)
    (hjs : jsFieldT (.obj fields) "jsonrpc" = .str "2.0")
    (hm : jsFieldT (.obj fields) "method" = .str s)
    (hlen : 2 ≤ (jsSplit s '.').length)
    (hA : buildInstances classes (firstComp (jsSplit s '.')) = some inst)
    (hb : lookupStr (lastComp (jsSplit s '.')) inst = some f)
    (hargs : spreadArgs (jsFieldT (.obj fields) "params") = .ok args)
    (hcall : f args = .ok r)
    (hr : isNullish r = true) :
    createExpressRouter classes (.obj fields)
      = .done (errRes 500 "Internal server error") := by
  have hne := ne_empty_of_comps s hlen
  have hobj : isNullish (JsonValue.obj fields) = false := rfl
  unfold createExpressRouter handle dispatch
  simp [eligible, truthy, strEq, jsField, hobj, hjs, hm, hne,
    Nat.not_lt.mpr hlen, hA, hb, hargs, hcall, hr]

/-- C5 witness: a method returning `null` on a one-dot selector. -/
theorem nullish_result_500_witness :
    createExpressRouter [⟨"S", [("m", fun _ => .ok JsonValue.null)]⟩]
      (JsonValue.obj [("jsonrpc", JsonValue.str "2.0"), ("method", JsonValue.str "S.m")])
      = .done (errRes 500 "Internal server error") :=
  nullish_result_500 _ _ "S.m" _ (fun _ => .ok JsonValue.null) [] JsonValue.null
    (by rfl) (by rfl) (by decide) (by rfl) (by rfl) (by rfl) (by rfl) (by decide)

/-- C6: an eligible request whose `method` string splits into two or more
components proceeds with exactly the first component as class name and the
last component as method name — the handler's behaviour equals `dispatch`
on those two names, so any middle segments are discarded. -/
theorem multidot_first_last (classes : List RuntimeClass)
    (fields : List (String × JsonValue)) (s : String)
    (hjs : jsFieldT (.obj fields) "jsonrpc" = .str "2.0")
    (hm : jsFieldT (.obj fields) "method" = .str s)
    (hlen : 2 ≤ (jsSplit s '.').length) :
    createExpressRouter classes (.obj fields)
      = dispatch (buildInstances classes) (firstComp (jsSplit s '.'))
          (lastComp (jsSplit s '.')) (jsFieldT (.obj fields) "params") := by
  have hne := ne_empty_of_comps s hlen
  unfold createExpressRouter handle
  simp [eligible, truthy, strEq, jsField, isNullish, hjs, hm, hne, Nat.not_lt.mpr hlen]

/-- C6 witness: `"A.b.c"` resolves to class `"A"` and method `"c"`, and the
request is answered by invoking `c` on the instance registered for `A`
(the middle segment `b` plays no role). -/
theorem multidot_first_last_witness :
    jsFieldT (JsonValue.obj [("jsonrpc", JsonValue.str "2.0"), ("method", JsonValue.str "A.b.c")]) "jsonrpc" = .str "2.0" ∧
    jsFieldT (JsonValue.obj [("jsonrpc", JsonValue.str "2.0"), ("method", JsonValue.str "A.b.c")]) "method" = .str "A.b.c" ∧
    2 ≤ (jsSplit "A.b.c" '.').length ∧
    firstComp (jsSplit "A.b.c" '.') = "A" ∧
    lastComp (jsSplit "A.b.c" '.') = "c" ∧
    createExpressRouter [⟨"A", [("c", fun _ => .ok (JsonValue.str "ok"))]⟩]
      (JsonValue.obj [("jsonrpc", JsonValue.str "2.0"), ("method", JsonValue.str "A.b.c")])
      = dispatch (buildInstances [⟨"A", [("c", fun _ => .ok (JsonValue.str "ok"))]⟩])
          (firstComp (jsSplit "A.b.c" '.')) (lastComp (jsSplit "A.b.c" '.'))
          (jsFieldT (JsonValue.obj [("jsonrpc", JsonValue.str "2.0"), ("method", JsonValue.str "A.b.c")]) "params") :=
  ⟨by rfl, by rfl, by decide, by decide, by decide,
   multidot_first_last _ _ "A.b.c" (by rfl) (by rfl) (by decide)⟩

/-- C7: if the resolved method's invocation throws or rejects, the handler
catches it and answers 500 `{error: "Internal server error"}` (the original
error is discarded), returning normally — no exception escapes. -/
theorem invocation_failure_500 (classes : List RuntimeClass)
    (fields : List (String × JsonValue)) (s : String)
    (inst : ServiceInstance) (f : List JsonValue → Except Unit JsonValue)
    (args : List JsonValue)
    (hjs : jsFieldT (.obj fields) "jsonrpc" = .str "2.0")
    (hm : jsFieldT (.obj fields) "method" = .str s)
    (hlen : 2 ≤ (jsSplit s '.').length)
    (hA : buildInstances classes (firstComp (jsSplit s '.')) = some inst)
    (hb : lookupStr (lastComp (jsSplit s '.')) inst = some f)
    (hargs : spreadArgs (jsFieldT (.obj fields) "params") = .ok args)
    (hcall : f args = .error ()) :
    createExpressRouter classes (.obj fields)
      = .done (errRes 500 "Internal server error") := by
  have hne := ne_empty_of_comps s hlen
  unfold createExpressRouter handle dispatch
  simp [eligible, truthy, strEq, jsField, isNullish, hjs, hm, hne,
    Nat.not_lt.mpr hlen, hA, hb, hargs, hcall]

/-- C7 witness: a method that always rejects. -/
theorem invocation_failure_500_witness :
    createExpressRouter [⟨"S", [("boom", fun _ => .error ())]⟩]
      (JsonValue.obj [("jsonrpc", JsonValue.str "2.0"), ("method", JsonValue.str "S.boom")])
      = .done (errRes 500 "Internal server error") :=
  invocation_failure_500 _ _ "S.boom" _ (fun _ => .error ()) []
    (by rfl) (by rfl) (by decide) (by rfl) (by rfl) (by rfl) (by rfl)

/-- C8: an eligible request whose `method` splits into at least two
components but whose first component names no registered class is answered
404 `{error: "Class <name> not found."}`; the class set is arbitrary — in
particular the empty registry (instantiated by the witness). -/
theorem unknown_class_404 (classes : List RuntimeClass)
    (fields : List (String × JsonValue)) (s : String)
    (hjs : jsFieldT (.obj fields) "jsonrpc" = .str "2.0")
    (hm : jsFieldT (.obj fields) "method" = .str s)
    (hlen : 2 ≤ (jsSplit s '.').length)
    (hA : buildInstances classes (firstComp (jsSplit s '.')) = none) :
    createExpressRouter classes (.obj fields)
      = .done (errRes 404 ("Class " ++ firstComp (jsSplit s '.') ++ " not found.")) := by
  have hne := ne_empty_of_comps s hlen
  unfold createExpressRouter handle dispatch
  simp [eligible, truthy, strEq, jsField, isNullish, hjs, hm, hne,
    Nat.not_lt.mpr hlen, hA]

/-- C8 witness: the empty class list rejects `A.b` with the class-not-found
response. -/
theorem unknown_class_404_witness :
    buildInstances [] (firstComp (jsSplit "A.b" '.')) = none ∧
    createExpressRouter [] (JsonValue.obj [("jsonrpc", JsonValue.str "2.0"), ("method", JsonValue.str "A.b")])
      = .done (errRes 404 ("Class " ++ firstComp (jsSplit "A.b" '.') ++ " not found.")) :=
  ⟨by rfl, unknown_class_404 [] _ "A.b" (by rfl) (by rfl) (by decide) (by rfl)⟩

/-- C9: an eligible, well-formed request whose class is registered but whose
instance has no property under the resolved method name is answered 404
`{error: "Method <name> not found"}` — there is no method to invoke, and
the response does not depend on any registered method's behaviour. -/
theorem unknown_method_404 (classes : List RuntimeClass)
    (fields : List (String × JsonValue)) (s : String)
    (inst : ServiceInstance)
    (hjs : jsFieldT (.obj fields) "jsonrpc" = .str "2.0")
    (hm : jsFieldT (.obj fields) "method" = .str s)
    (hlen : 2 ≤ (jsSplit s '.').length)
    (hA : buildInstances classes (firstComp (jsSplit s '.')) = some inst)
    (hb : lookupStr (lastComp (jsSplit s '.')) inst = none) :
    createExpressRouter classes (.obj fields)
      = .done (errRes 404 ("Method " ++ lastComp (jsSplit s '.') ++ " not found")) := by
  have hne := ne_empty_of_comps s hlen
  unfold createExpressRouter handle dispatch
  simp [eligible, truthy, strEq, jsField, isNullish, hjs, hm, hne,
    Nat.not_lt.mpr hlen, hA, hb]

/-- C9 witness: class `S` is registered with only method `m`; selector
`S.nope` yields the method-not-found response. -/
theorem unknown_method_404_witness :
    lookupStr (lastComp (jsSplit "S.nope" '.'))
      ([("m", fun _ => .ok JsonValue.null)] : ServiceInstance) = none ∧
    createExpressRouter [⟨"S", [("m", fun _ => .ok JsonValue.null)]⟩]
      (JsonValue.obj [("jsonrpc", JsonValue.str "2.0"), ("method", JsonValue.str "S.nope")])
      = .done (errRes 404 ("Method " ++ lastComp (jsSplit "S.nope" '.') ++ " not found")) :=
  ⟨by rfl, unknown_method_404 _ _ "S.nope" _ (by rfl) (by rfl) (by decide) (by rfl) (by rfl)⟩

end Genezio
